import Mathlib

/-!
Shallow embedding of the grail package (`grail.go`): the typed error model,
image-MIME sniffing, request validation, model resolution, the `Generate`
dispatch path, the remote-fetch helper, and the path-extension MIME table.
Byte slices are modelled as `List Nat` (byte values), Go strings as `String`,
Go `int`/`int64` as `Int` where negative values matter and `Nat` otherwise,
Go `nil`-able interface values as `Option`.
-/

namespace Grail

/-- `ErrorCode` constants from grail.go (an ErrorCode is a Go string). -/
def InvalidArgument : String := "invalid_argument"

def Unauthorized : String := "unauthorized"

def RateLimited : String := "rate_limited"

def Timeout : String := "timeout"

def Unavailable : String := "unavailable"

def Unsupported : String := "unsupported"

def Refused : String := "refused"

def OutputInvalid : String := "output_invalid"

def Internal : String := "internal"

/-- Go `error` values as they occur in this package: either a `*grailError`
(fields `code, message, retryable, providerName, requestID, cause` from
grail.go) or a plain error carrying a message, optionally wrapping another
error (as `fmt.Errorf` with `%w` does). `cause = none` models a nil cause. -/
inductive GoError where
  | grail (code message : String) (retryable : Bool)
      (providerName requestID : String) (cause : Option GoError)
  | plain (message : String) (cause : Option GoError)

/-- `NewGrailError(code, message)`: zero-valued remaining fields. -/
def newGrailError (code message : String) : GoError :=
  GoError.grail code message false "" "" none

/-- `(*grailError).WithCause`. Only ever called on grail errors in the source. -/
def withCause : GoError → GoError → GoError
  | GoError.grail c m r p q _, cause => GoError.grail c m r p q (some cause)
  | e, _ => e

/-- `(*grailError).WithRetryable`. -/
def withRetryable : GoError → Bool → GoError
  | GoError.grail c m _ p q cz, r => GoError.grail c m r p q cz
  | e, _ => e

/-- `errors.As(err, &ge)` for a `GrailError` target: return the first
grail error in the unwrap chain (the error itself, else its wrapped causes). -/
def errAs : GoError → Option (String × String × Bool × String × String)
  | GoError.grail c m r p q _ => some (c, m, r, p, q)
  | GoError.plain _ none => none
  | GoError.plain _ (some e) => errAs e

/-- `(*grailError).Error()` / `%v` formatting of an error. -/
def errString : GoError → String
  | GoError.grail c m _ _ _ none => c ++ ": " ++ m
  | GoError.grail c m _ _ _ (some e) => c ++ ": " ++ m ++ ": " ++ errString e
  | GoError.plain m _ => m

/-- The `message` field of an error. -/
def errMessageOf : GoError → String
  | GoError.grail _ m _ _ _ _ => m
  | GoError.plain m _ => m

/-- The `cause` field of an error. -/
def errCause : GoError → Option GoError
  | GoError.grail _ _ _ _ _ cz => cz
  | GoError.plain _ cz => cz

/-- The `retryable` field of a grail error (`false` for plain errors,
matching the zero value). -/
def errRetryableFlag : GoError → Bool
  | GoError.grail _ _ r _ _ _ => r
  | GoError.plain _ _ => false

/-- `GetErrorCode(err)`: "" for nil, the grail error's code when one is in
the chain, `Internal` otherwise. -/
def GetErrorCode : Option GoError → String
  | none => ""
  | some e =>
    match errAs e with
    | some (c, _, _, _, _) => c
    | none => Internal

/-- The code-based retryability default shared by both branches of
`IsRetryable`: RateLimited, Timeout and Unavailable retry by default. -/
def codeRetryDefault (c : String) : Bool :=
  c == RateLimited || c == Timeout || c == Unavailable

/-- `IsRetryable(err)` from grail.go: if a grail error is found, an explicitly
set retryable flag wins, else fall back to the code default; for non-grail
errors use the code from `GetErrorCode`. -/
def IsRetryable (err : Option GoError) : Bool :=
  match err.bind errAs with
  | some (c, _, r, _, _) => if r then true else codeRetryDefault c
  | none => codeRetryDefault (GetErrorCode err)

/-- PNG magic bytes `\x89PNG`. -/
def pngMagic : List Nat := [0x89, 0x50, 0x4E, 0x47]

/-- GIF87a signature bytes. -/
def gif87Magic : List Nat := [0x47, 0x49, 0x46, 0x38, 0x37, 0x61]

/-- GIF89a signature bytes. -/
def gif89Magic : List Nat := [0x47, 0x49, 0x46, 0x38, 0x39, 0x61]

/-- RIFF container magic bytes. -/
def riffMagic : List Nat := [0x52, 0x49, 0x46, 0x46]

/-- WEBP chunk tag bytes (at offset 8 of a RIFF container). -/
def webpMagic : List Nat := [0x57, 0x45, 0x42, 0x50]

/-- JPEG signature bytes `0xFF 0xD8`. -/
def jpegMagic : List Nat := [0xFF, 0xD8]

/-- `SniffImageMIME(data)` from grail.go: early return "" below 4 bytes,
then PNG, JPEG, GIF, WebP signature checks in that order. -/
def SniffImageMIME (data : List Nat) : String :=
  if data.length < 4 then ""
  else if 4 ≤ data.length ∧ data.take 4 = pngMagic then "image/png"
  else if 2 ≤ data.length ∧ data.take 2 = jpegMagic then "image/jpeg"
  else if 6 ≤ data.length ∧ (data.take 6 = gif87Magic ∨ data.take 6 = gif89Magic) then
    "image/gif"
  else if 12 ≤ data.length ∧ data.take 4 = riffMagic ∧ (data.drop 8).take 4 = webpMagic then
    "image/webp"
  else ""

/-- the unexported `sniffImageMIME` alias used by validation. -/
def sniffImageMIME (data : List Nat) : String :=
  SniffImageMIME data

/-- The `Input` tagged union: `textInput`, `fileInput` (bytes, MIME, optional
name) and `fileReaderInput` (the reader itself is outside the embedding; its
declared size and MIME are what validation consults). -/
inductive Input where
  | textInput (text : String)
  | fileInput (data : List Nat) (mime : String) (name : String)
  | fileReaderInput (size : Int) (mime : String) (name : String)
deriving Repr, DecidableEq

/-- `InputText(s)`. -/
def InputText (s : String) : Input :=
  Input.textInput s

/-- `InputFile(data, mime, opts...)`; the only file option is `WithFileName`,
so the applied options are modelled by the resulting name (`""` when absent). -/
def InputFile (data : List Nat) (mime : String) (name : String) : Input :=
  Input.fileInput data mime name

/-- `InputPDF(data, opts...)`: a file input with MIME forced to
`application/pdf`. -/
def InputPDF (data : List Nat) (name : String) : Input :=
  InputFile data "application/pdf" name

/-- `InputImage(data, opts...)`: a file input with the empty MIME used as the
deferred-sniff marker; validation sniffs and verifies at Generate time. -/
def InputImage (data : List Nat) (name : String) : Input :=
  InputFile data "" name

/-- `AsFileInput(input)`: the `(data, mime, name, ok)` downcast. -/
def AsFileInput : Input → Option (List Nat × String × String)
  | Input.fileInput d m n => some (d, m, n)
  | _ => none

/-- `AsTextInput(input)`. -/
def AsTextInput : Input → Option String
  | Input.textInput t => some t
  | _ => none

/-- `ImageSpec` (`Count int`). -/
structure ImageSpec where
  count : Int
deriving Repr, DecidableEq

/-- The `Output` tagged union: `textOutput`, `imageOutput{Spec}`,
`jsonOutput{Schema, Strict}` (the opaque `Schema any` field is not consulted
by any embedded function and is omitted). -/
inductive Output where
  | textOutput
  | imageOutput (spec : ImageSpec)
  | jsonOutput (strict : Bool)
deriving Repr, DecidableEq

/-- `IsTextOutput(output)`. -/
def IsTextOutput : Output → Bool
  | Output.textOutput => true
  | _ => false

/-- `GetImageSpec(output)`. -/
def GetImageSpec : Output → Option ImageSpec
  | Output.imageOutput s => some s
  | _ => none

/-- `ModelRoleText` constant. -/
def ModelRoleText : String := "text"

/-- `ModelRoleImage` constant. -/
def ModelRoleImage : String := "image"

/-- `ModelTierBest` constant. -/
def ModelTierBest : String := "best"

/-- `ModelTierFast` constant. -/
def ModelTierFast : String := "fast"

/-- `Request`: inputs, output (a nil-able interface, hence `Option`), the
optional explicit model and the optional tier. `ProviderOptions` and
`Metadata` are carried opaquely by the source and consulted by none of the
embedded functions, so they are omitted. -/
structure Request where
  inputs : List Input
  output : Option Output
  model : String
  tier : String
deriving Repr, DecidableEq

/-- `roleFromOutput(output)`: text outputs and JSON outputs map to the text
role, image outputs to the image role (the source's two failed type
assertions on a nil output also fall through to the text role). -/
def roleFromOutput (output : Option Output) : String :=
  match output with
  | some o =>
    if IsTextOutput o then ModelRoleText
    else if (GetImageSpec o).isSome then ModelRoleImage
    else ModelRoleText
  | none => ModelRoleText

/-- `MaxPDFSize` = 50 MB. -/
def MaxPDFSize : Nat := 50 * 1024 * 1024

/-- `MaxFileSize` = 100 MB. -/
def MaxFileSize : Nat := 100 * 1024 * 1024

/-- The body of `validateRequest`'s per-input switch at index `i`:
file inputs are checked for non-emptiness, the generic size cap, the
empty-MIME image sniff, and the PDF-specific cap; text inputs always pass;
reader inputs need a declared MIME and a positive declared size within the
generic cap. Returns the first violation as `some` error. -/
def validateInput (i : Nat) (input : Input) : Option GoError :=
  match input with
  | Input.fileInput data mime0 _ =>
    if data.length = 0 then
      some (newGrailError InvalidArgument
        ("input " ++ toString i ++ ": file data is empty"))
    else if MaxFileSize < data.length then
      some (newGrailError InvalidArgument
        ("input " ++ toString i ++ ": file size " ++ toString data.length
          ++ " exceeds maximum " ++ toString MaxFileSize ++ " bytes"))
    else
      let mime := if mime0 = "" then sniffImageMIME data else mime0
      if mime0 = "" ∧ (mime = "" ∨ ¬ mime.take 6 = "image/") then
        some (newGrailError InvalidArgument
          ("input " ++ toString i ++ ": expected image/*, got " ++ mime))
      else if mime = "application/pdf" ∧ MaxPDFSize < data.length then
        some (newGrailError InvalidArgument
          ("input " ++ toString i ++ ": PDF file size " ++ toString data.length
            ++ " exceeds maximum " ++ toString MaxPDFSize ++ " bytes"))
      else none
  | Input.textInput _ => none
  | Input.fileReaderInput size mime _ =>
    if mime = "" then
      some (newGrailError InvalidArgument
        ("input " ++ toString i ++ ": MIME type must be specified"))
    else if 0 < size ∧ (MaxFileSize : Int) < size then
      some (newGrailError InvalidArgument
        ("input " ++ toString i ++ ": file size " ++ toString size
          ++ " exceeds maximum " ++ toString MaxFileSize ++ " bytes"))
    else none

/-- The `for i, input := range req.Inputs` loop of `validateRequest`:
first violation wins. -/
def validateLoop : Nat → List Input → Option GoError
  | _, [] => none
  | i, input :: rest =>
    match validateInput i input with
    | some e => some e
    | none => validateLoop (i + 1) rest

/-- `validateRequest(req)`: empty inputs, then missing output, then the
per-input loop. `none` means the request is accepted. -/
def validateRequest (req : Request) : Option GoError :=
  if req.inputs.length = 0 then
    some (newGrailError InvalidArgument "inputs must not be empty")
  else
    match req.output with
    | none => some (newGrailError InvalidArgument "output must be specified")
    | some _ => validateLoop 0 req.inputs

/-- `OutputPart` tagged union. -/
inductive OutputPart where
  | textOutputPart (text : String)
  | imageOutputPart (data : List Nat) (mime : String) (name : String)
  | jsonOutputPart (json : List Nat)
deriving Repr, DecidableEq

/-- `Usage` token counters. -/
structure Usage where
  inputTokens : Int
  outputTokens : Int
  totalTokens : Int
deriving Repr, DecidableEq

/-- `Warning`. -/
structure Warning where
  code : String
  message : String
deriving Repr, DecidableEq

/-- `ModelUse`. -/
structure ModelUse where
  role : String
  name : String
deriving Repr, DecidableEq

/-- `ProviderInfo`. -/
structure ProviderInfo where
  name : String
  route : String
  models : List ModelUse
deriving Repr, DecidableEq

/-- `Response`. -/
structure Response where
  outputs : List OutputPart
  usage : Usage
  provider : ProviderInfo
  requestID : String
  warnings : List Warning
deriving Repr, DecidableEq

/-- A bound `ProviderExecutor` as `Generate` sees it: the `DoGenerate`
execution method, and the optional `ModelResolver` capability (`none` when
the dynamic interface assertion fails). -/
structure ProviderExec where
  doGenerate : Request → Except GoError Response
  resolveModel : Option (String → String → Except GoError String)

/-- `(*client).Generate(ctx, req)`, instrumented: the second component is
the request handed to the provider's `DoGenerate` (`none` when `DoGenerate`
was never invoked). Mirrors the source: validate, then resolve the model
only when `Model` is empty and `Tier` is set and the provider has the
resolver capability, then dispatch. -/
def generateT (p : ProviderExec) (req : Request) :
    Except GoError Response × Option Request :=
  match validateRequest req with
  | some e => (Except.error e, none)
  | none =>
    if req.model = "" ∧ req.tier ≠ "" then
      match p.resolveModel with
      | some rm =>
        let role := roleFromOutput req.output
        match rm role req.tier with
        | Except.error e =>
          (Except.error (withCause (newGrailError InvalidArgument
            ("failed to resolve model for role=" ++ role ++ " tier="
              ++ req.tier ++ ": " ++ errString e)) e), none)
        | Except.ok resolved =>
          let req2 : Request := { req with model := resolved }
          (p.doGenerate req2, some req2)
      | none => (p.doGenerate req, some req)
    else (p.doGenerate req, some req)

/-- `(*client).Generate(ctx, req)`: the result handed back to the caller. -/
def Generate (p : ProviderExec) (req : Request) : Except GoError Response :=
  (generateT p req).1

/-- What the HTTP GET inside `downloadFile` produced: a transport error
(with the `context.DeadlineExceeded` distinction) or a response with status,
declared `Content-Length` (−1 when absent), declared `Content-Type`, the
actual body bytes the server delivers, and an optional mid-body read
failure. -/
inductive FetchOutcome where
  | transportError (deadlineExceeded : Bool) (message : String)
  | response (status : Int) (contentLength : Int) (contentType : String)
      (body : List Nat) (readFailure : Option String)

/-- `(*client).downloadFile(ctx, uri, expectedMIME, opts...)` on a given
fetch outcome: deadline → Timeout retryable, other transport failure →
Unavailable retryable, non-200 → Unavailable, `Content-Length` above the
cap → InvalidArgument, a capped read of `maxBytes+1` bytes with a second
InvalidArgument rejection on the actual length, defaulting the MIME, and
the expected-MIME family check. -/
def downloadFile (downloadMaxBytes : Int) (expectedMIME : String)
    (outcome : FetchOutcome) (name : String) : Except GoError Input :=
  match outcome with
  | FetchOutcome.transportError true msg =>
    Except.error (withRetryable (withCause (newGrailError Timeout
      "download timeout") (GoError.plain msg none)) true)
  | FetchOutcome.transportError false msg =>
    Except.error (withRetryable (withCause (newGrailError Unavailable
      ("download failed: " ++ msg)) (GoError.plain msg none)) true)
  | FetchOutcome.response status contentLength contentType body readFailure =>
    if status ≠ 200 then
      Except.error (newGrailError Unavailable
        ("download failed with status " ++ toString status))
    else if downloadMaxBytes < contentLength then
      Except.error (newGrailError InvalidArgument
        ("file size " ++ toString contentLength ++ " exceeds maximum "
          ++ toString downloadMaxBytes ++ " bytes"))
    else
      match readFailure with
      | some msg =>
        Except.error (withCause (newGrailError Unavailable
          ("failed to read response: " ++ msg)) (GoError.plain msg none))
      | none =>
        let data := body.take (downloadMaxBytes + 1).toNat
        if downloadMaxBytes < (data.length : Int) then
          Except.error (newGrailError InvalidArgument
            ("file size exceeds maximum " ++ toString downloadMaxBytes
              ++ " bytes"))
        else
          let mime := if contentType = "" then "application/octet-stream"
            else contentType
          if expectedMIME ≠ "" then
            if expectedMIME = "application/pdf" then
              if mime ≠ "application/pdf" then
                Except.error (newGrailError InvalidArgument
                  ("expected PDF, got " ++ mime))
              else Except.ok (InputFile data mime name)
            else if expectedMIME.take 6 = "image/" then
              if ¬ mime.take 6 = "image/" then
                Except.error (newGrailError InvalidArgument
                  ("expected image, got " ++ mime))
              else Except.ok (InputFile data mime name)
            else Except.ok (InputFile data mime name)
          else Except.ok (InputFile data mime name)

/-- `(*client).InputFileFromURI`: download with no expected MIME family. -/
def InputFileFromURI (downloadMaxBytes : Int) (outcome : FetchOutcome)
    (name : String) : Except GoError Input :=
  downloadFile downloadMaxBytes "" outcome name

/-- `(*client).InputImageFromURI`: download expecting the `image/` family. -/
def InputImageFromURI (downloadMaxBytes : Int) (outcome : FetchOutcome)
    (name : String) : Except GoError Input :=
  downloadFile downloadMaxBytes "image/" outcome name

/-- `(*client).InputPDFFromURI`: download expecting `application/pdf`. -/
def InputPDFFromURI (downloadMaxBytes : Int) (outcome : FetchOutcome)
    (name : String) : Except GoError Input :=
  downloadFile downloadMaxBytes "application/pdf" outcome name

/-- The suffix of the character list starting at its LAST `.`, or `none`
when no `.` occurs: `strings.LastIndex(path, ".")` followed by slicing
from that index. -/
def lastDotSuffixAux : List Char → Option (List Char)
  | [] => none
  | c :: rest =>
    match lastDotSuffixAux rest with
    | some s => some s
    | none => if c = '.' then some (c :: rest) else none

/-- `path[strings.LastIndex(path, "."):]` as an `Option`: `none` models the
Go runtime panic (slice bounds out of range) that `path[-1:]` raises when
the path contains no `.`. -/
def lastDotSuffix (path : String) : Option String :=
  (lastDotSuffixAux path.toList).map fun l => String.mk l

/-- ASCII lower-casing of one character (`strings.ToLower` acts exactly so
on the ASCII extensions the lookup table matches). -/
def asciiToLower (c : Char) : Char :=
  if 'A' ≤ c ∧ c ≤ 'Z' then Char.ofNat (c.toNat + 32) else c

/-- `strings.ToLower` on an extension string. -/
def lowerString (s : String) : String :=
  String.mk (s.toList.map asciiToLower)

/-- The extension switch of `detectMIMEFromPath` on the lower-cased
extension (the text including the final dot). -/
def extMIMETable (ext : String) : String :=
  if ext = ".pdf" then "application/pdf"
  else if ext = ".png" then "image/png"
  else if ext = ".jpg" ∨ ext = ".jpeg" then "image/jpeg"
  else if ext = ".gif" then "image/gif"
  else if ext = ".webp" then "image/webp"
  else if ext = ".txt" then "text/plain"
  else if ext = ".md" ∨ ext = ".markdown" then "text/markdown"
  else if ext = ".html" ∨ ext = ".htm" then "text/html"
  else if ext = ".json" then "application/json"
  else if ext = ".go" then "text/x-go"
  else "application/octet-stream"

/-- `detectMIMEFromPath(path)`: `some mime` on the normal path, `none` when
the source's `path[strings.LastIndex(path, "."):]` slice panics because the
path holds no `.`. -/
def detectMIMEFromPath (path : String) : Option String :=
  match lastDotSuffix path with
  | none => none
  | some ext => some (extMIMETable (lowerString ext))

/-- The 8-byte PNG file header, the canonical bytes beginning with the PNG
magic (also used by the repository's tests). -/
def pngBytes8 : List Nat := [0x89, 0x50, 0x4E, 0x47, 0x0D, 0x0A, 0x1A, 0x0A]

/-- An empty provider response, for concrete provider instances. -/
def emptyResponse : Response :=
  ⟨[], ⟨0, 0, 0⟩, ⟨"", "", []⟩, "", []⟩

/-- A concrete provider with no resolver capability whose `DoGenerate`
always succeeds. -/
def trivialProvider : ProviderExec :=
  ⟨fun _ => Except.ok emptyResponse, none⟩

/-- A concrete provider whose resolver capability always fails. -/
def failingResolverProvider : ProviderExec :=
  ⟨fun _ => Except.ok emptyResponse,
   some fun _ _ => Except.error (GoError.plain "no model registered" none)⟩

/-- A concrete request holding one `InputImage` built from PNG-magic bytes. -/
def reqPng : Request :=
  ⟨[InputImage pngBytes8 ""], some Output.textOutput, "", ""⟩

end Grail

namespace GrailProofs

open Grail

/-- C2, counterexample: the claim says `IsRetryable` is false for every
`InvalidArgument` error regardless of the retryable flag, but an
`InvalidArgument` error whose retryable flag was explicitly set to true is
reported retryable (`IsRetryable` consults the flag first). -/
theorem isRetryable_invalidArgument_flag_wins :
    IsRetryable (some (GoError.grail InvalidArgument "invalid" true "" "" none)) = true := by
  decide

/-- C2, amended: for an error whose grail code is `RateLimited`,
`IsRetryable` is true even when the retryable flag was never set; for a code
of `InvalidArgument` it is false whenever the retryable flag is unset
(its zero value false) — an explicitly set flag overrides the code default. -/
theorem isRetryable_code_defaults (err : GoError) (c m : String) (r : Bool)
    (p q : String) (h : errAs err = some (c, m, r, p, q)) :
    (c = RateLimited → IsRetryable (some err) = true) ∧
    (c = InvalidArgument → r = false → IsRetryable (some err) = false) := by
  unfold IsRetryable
  rw [Option.some_bind, h]
  refine ⟨fun hc => ?_, fun hc hr => ?_⟩
  · subst hc
    cases r with
    | true => rfl
    | false => simp [codeRetryDefault, RateLimited, Timeout, Unavailable]
  · subst hc
    subst hr
    simp [codeRetryDefault, InvalidArgument, RateLimited, Timeout, Unavailable]

/-- C2, witness: the amended theorem applied to a flagless rate-limited
error and a flagless invalid-argument error. -/
theorem isRetryable_code_defaults_witness :
    IsRetryable (some (GoError.grail RateLimited "rate limited" false "" "" none)) = true ∧
    IsRetryable (some (GoError.grail InvalidArgument "invalid" false "" "" none)) = false :=
  ⟨(isRetryable_code_defaults
      (GoError.grail RateLimited "rate limited" false "" "" none)
      RateLimited "rate limited" false "" "" rfl).1 rfl,
   (isRetryable_code_defaults
      (GoError.grail InvalidArgument "invalid" false "" "" none)
      InvalidArgument "invalid" false "" "" rfl).2 rfl rfl⟩

/-- A list whose `n`-byte head equals an `n`-byte pattern has at least `n`
elements. -/
theorem length_le_of_take_eq {l p : List Nat} {n : Nat} (hp : p.length = n)
    (h : l.take n = p) : n ≤ l.length := by
  have hl := congrArg List.length h
  simp only [List.length_take] at hl
  omega

/-- Agreement on a long head implies agreement on a shorter head. -/
theorem take_of_take_eq {l p : List Nat} {n m : Nat} (hnm : n ≤ m)
    (h : l.take m = p) : l.take n = p.take n := by
  rw [← h, List.take_take]
  congr 1
  omega

/-- C3, counterexample: the bytes `0xFF 0xD8` are exactly the JPEG
signature (they are their own 2-byte head), yet `SniffImageMIME` returns
`""` on them rather than `"image/jpeg"`, because of its 4-byte early
return; this refutes the claim's "image/jpeg for every slice starting with
0xFF 0xD8" and its "empty only below the shortest (2-byte) signature". -/
theorem sniffImageMIME_two_byte_jpeg_missed :
    jpegMagic.take 2 = jpegMagic ∧ SniffImageMIME jpegMagic = "" ∧
      ("" : String) ≠ "image/jpeg" := by
  refine ⟨by decide, by decide, by decide⟩

/-- C3, amended: `SniffImageMIME` is a total deterministic function of the
byte slice returning `image/png`, `image/gif` and `image/webp` for slices
led by those signatures; it returns `image/jpeg` for a slice led by
`0xFF 0xD8` only when the slice has at least 4 bytes; it returns `""` for
every input shorter than 4 bytes, and in general `""` exactly when the
input is shorter than 4 bytes or no signature matches. -/
theorem sniffImageMIME_spec (data : List Nat) :
    (data.take 4 = pngMagic → SniffImageMIME data = "image/png")
    ∧ (4 ≤ data.length → data.take 2 = jpegMagic →
        SniffImageMIME data = "image/jpeg")
    ∧ ((data.take 6 = gif87Magic ∨ data.take 6 = gif89Magic) →
        SniffImageMIME data = "image/gif")
    ∧ (data.take 4 = riffMagic → (data.drop 8).take 4 = webpMagic →
        SniffImageMIME data = "image/webp")
    ∧ (data.length < 4 → SniffImageMIME data = "")
    ∧ (SniffImageMIME data = "" ↔
        (data.length < 4 ∨
          (¬ data.take 4 = pngMagic ∧ ¬ data.take 2 = jpegMagic
            ∧ ¬ data.take 6 = gif87Magic ∧ ¬ data.take 6 = gif89Magic
            ∧ ¬ (data.take 4 = riffMagic ∧ (data.drop 8).take 4 = webpMagic)))) := by
  have hpng_ne_of_jpeg : data.take 2 = jpegMagic → ¬ data.take 4 = pngMagic := by
    intro h2 h4
    have := take_of_take_eq (show 2 ≤ 4 by omega) h4
    rw [h2] at this
    exact absurd this (by decide)
  have hgif_len : (data.take 6 = gif87Magic ∨ data.take 6 = gif89Magic) →
      6 ≤ data.length := by
    intro h
    cases h with
    | inl h => exact length_le_of_take_eq (by decide) h
    | inr h => exact length_le_of_take_eq (by decide) h
  have hgif_t4 : (data.take 6 = gif87Magic ∨ data.take 6 = gif89Magic) →
      data.take 4 = [0x47, 0x49, 0x46, 0x38] := by
    intro h
    cases h with
    | inl h => rw [take_of_take_eq (show 4 ≤ 6 by omega) h]; decide
    | inr h => rw [take_of_take_eq (show 4 ≤ 6 by omega) h]; decide
  have hgif_t2 : (data.take 6 = gif87Magic ∨ data.take 6 = gif89Magic) →
      data.take 2 = [0x47, 0x49] := by
    intro h
    cases h with
    | inl h => rw [take_of_take_eq (show 2 ≤ 6 by omega) h]; decide
    | inr h => rw [take_of_take_eq (show 2 ≤ 6 by omega) h]; decide
  have hwebp_len : (data.drop 8).take 4 = webpMagic → 12 ≤ data.length := by
    intro hw
    have := length_le_of_take_eq (show webpMagic.length = 4 by decide) hw
    simp only [List.length_drop] at this
    omega
  refine ⟨?_, ?_, ?_, ?_, ?_, ?_⟩
  · intro h
    have h4 : 4 ≤ data.length := length_le_of_take_eq (by decide) h
    unfold SniffImageMIME
    rw [if_neg (by omega), if_pos ⟨h4, h⟩]
  · intro hlen h2
    unfold SniffImageMIME
    rw [if_neg (by omega), if_neg (fun hc => hpng_ne_of_jpeg h2 hc.2),
      if_pos ⟨by omega, h2⟩]
  · intro h
    have h6 := hgif_len h
    have t4 := hgif_t4 h
    have t2 := hgif_t2 h
    unfold SniffImageMIME
    rw [if_neg (by omega),
      if_neg (fun hc => absurd (t4 ▸ hc.2) (by decide)),
      if_neg (fun hc => absurd (t2 ▸ hc.2) (by decide)),
      if_pos ⟨h6, h⟩]
  · intro hr hw
    have h12 := hwebp_len hw
    have t2 : data.take 2 = [0x52, 0x49] := by
      rw [take_of_take_eq (show 2 ≤ 4 by omega) hr]; decide
    have hgif : ¬ (data.take 6 = gif87Magic ∨ data.take 6 = gif89Magic) := by
      intro h
      exact absurd ((hgif_t4 h) ▸ hr) (by decide)
    unfold SniffImageMIME
    rw [if_neg (by omega),
      if_neg (fun hc => absurd (hr ▸ hc.2) (by decide)),
      if_neg (fun hc => absurd (t2 ▸ hc.2) (by decide)),
      if_neg (fun hc => hgif hc.2),
      if_pos ⟨h12, hr, hw⟩]
  · intro h
    unfold SniffImageMIME
    rw [if_pos h]
  · unfold SniffImageMIME
    split_ifs with h1 h2 h3 h4 h5
    · exact iff_of_true rfl (Or.inl h1)
    · exact iff_of_false (by decide)
        (fun hor => hor.elim h1 fun hc => hc.1 h2.2)
    · exact iff_of_false (by decide)
        (fun hor => hor.elim h1 fun hc => hc.2.1 h3.2)
    · exact iff_of_false (by decide)
        (fun hor => hor.elim h1 fun hc =>
          h4.2.elim (fun hg => hc.2.2.1 hg) (fun hg => hc.2.2.2.1 hg))
    · exact iff_of_false (by decide)
        (fun hor => hor.elim h1 fun hc => hc.2.2.2.2 ⟨h5.2.1, h5.2.2⟩)
    · refine iff_of_true rfl (Or.inr ⟨?_, ?_, ?_, ?_, ?_⟩)
      · exact fun hp => h2 ⟨by omega, hp⟩
      · exact fun hj => h3 ⟨by omega, hj⟩
      · exact fun hg => h4 ⟨hgif_len (Or.inl hg), Or.inl hg⟩
      · exact fun hg => h4 ⟨hgif_len (Or.inr hg), Or.inr hg⟩
      · exact fun hc => h5 ⟨hwebp_len hc.2, hc.1, hc.2⟩

/-- C3, witness: the amended theorem applied to the PNG magic, a 4-byte
JPEG-led slice, the GIF87a signature, a minimal RIFF/WEBP header, and the
2-byte slice `0xFF 0xD8`. -/
theorem sniffImageMIME_spec_witness :
    SniffImageMIME pngMagic = "image/png"
    ∧ SniffImageMIME [0xFF, 0xD8, 0, 0] = "image/jpeg"
    ∧ SniffImageMIME gif87Magic = "image/gif"
    ∧ SniffImageMIME (riffMagic ++ [0, 0, 0, 0] ++ webpMagic) = "image/webp"
    ∧ SniffImageMIME [0xFF, 0xD8] = "" :=
  ⟨(sniffImageMIME_spec pngMagic).1 (by decide),
   (sniffImageMIME_spec [0xFF, 0xD8, 0, 0]).2.1 (by decide) (by decide),
   (sniffImageMIME_spec gif87Magic).2.2.1 (Or.inl (by decide)),
   (sniffImageMIME_spec (riffMagic ++ [0, 0, 0, 0] ++ webpMagic)).2.2.2.1
     (by decide) (by decide),
   (sniffImageMIME_spec [0xFF, 0xD8]).2.2.2.2.1 (by decide)⟩

/-- C1, counterexample: a request holding `InputImage(pngMagicBytes)` passes
validation, but the request handed to the provider's `DoGenerate` is the
original request, whose file input still carries the empty deferred-sniff
MIME marker (as `AsFileInput` exposes) — not `"image/png"` as claimed:
validation only verifies the sniff, it never writes the result back. -/
theorem inputImage_mime_not_reclassified :
    validateRequest reqPng = none
    ∧ (generateT trivialProvider reqPng).2 = some reqPng
    ∧ reqPng.inputs.map AsFileInput = [some (pngBytes8, "", "")]
    ∧ ("" : String) ≠ "image/png" :=
  ⟨rfl, rfl, rfl, by decide⟩

/-- C1, amended: the inputs of the request that reaches the provider's
`DoGenerate` are always exactly the caller's inputs, unchanged (so an
`InputImage` still carries its empty-MIME marker after validation sniffs
and verifies it); and a request whose input is an `InputImage` over bytes
matching no recognized image signature is rejected by `validateRequest`
with an `InvalidArgument` error. -/
theorem generate_inputs_verbatim_and_sniff_reject :
    (∀ (p : ProviderExec) (req req2 : Request),
        (generateT p req).2 = some req2 → req2.inputs = req.inputs)
    ∧ (∀ (data : List Nat) (name model tier : String) (out : Output),
        sniffImageMIME data = "" →
        ∃ e, validateRequest ⟨[InputImage data name], some out, model, tier⟩ = some e
          ∧ GetErrorCode (some e) = InvalidArgument) := by
  constructor
  · intro p req req2 h
    cases hv : validateRequest req with
    | some e => simp [generateT, hv] at h
    | none =>
      by_cases hc : req.model = "" ∧ req.tier ≠ ""
      · cases hr : p.resolveModel with
        | none =>
          simp [generateT, hv, hc, hr] at h
          rw [← h]
        | some rm =>
          cases hm : rm (roleFromOutput req.output) req.tier with
          | error e => simp [generateT, hv, hc, hr, hm] at h
          | ok resolved =>
            simp [generateT, hv, hc, hr, hm] at h
            rw [← h]
      · simp [generateT, hv, hc] at h
        rw [← h]
  · intro data name model tier out hsniff
    by_cases h0 : data.length = 0
    · have hval : validateRequest ⟨[InputImage data name], some out, model, tier⟩
          = some (newGrailError InvalidArgument
              ("input " ++ toString (0 : Nat) ++ ": file data is empty")) := by
        simp [validateRequest, validateLoop, validateInput, InputImage,
          InputFile, h0]
      exact ⟨_, hval, rfl⟩
    · by_cases hbig : MaxFileSize < data.length
      · have hval : validateRequest ⟨[InputImage data name], some out, model, tier⟩
            = some (newGrailError InvalidArgument
                ("input " ++ toString (0 : Nat) ++ ": file size "
                  ++ toString data.length ++ " exceeds maximum "
                  ++ toString MaxFileSize ++ " bytes")) := by
          simp [validateRequest, validateLoop, validateInput, InputImage,
            InputFile, h0, hbig]
        exact ⟨_, hval, rfl⟩
      · have hval : validateRequest ⟨[InputImage data name], some out, model, tier⟩
            = some (newGrailError InvalidArgument
                ("input " ++ toString (0 : Nat) ++ ": expected image/*, got "
                  ++ "")) := by
          simp [validateRequest, validateLoop, validateInput, InputImage,
            InputFile, h0, hbig, hsniff]
        exact ⟨_, hval, rfl⟩

/-- C1, witness: the amended theorem applied to the trivial provider on the
PNG request (inputs reach the provider verbatim) and to `InputImage` over
the four non-image bytes `1 2 3 4`. -/
theorem generate_inputs_verbatim_witness :
    reqPng.inputs = reqPng.inputs
    ∧ ∃ e, validateRequest ⟨[InputImage [1, 2, 3, 4] ""], some Output.textOutput, "", ""⟩
        = some e ∧ GetErrorCode (some e) = InvalidArgument :=
  ⟨generate_inputs_verbatim_and_sniff_reject.1 trivialProvider reqPng reqPng rfl,
   generate_inputs_verbatim_and_sniff_reject.2 [1, 2, 3, 4] "" "" ""
     Output.textOutput (by decide)⟩

/-- C4: a request carrying a PDF file input of exactly `MaxPDFSize` bytes
(with the other validation constraints satisfied) is accepted, while one of
`MaxPDFSize + 1` bytes is rejected with `InvalidArgument`, although
`MaxPDFSize + 1` is still below the generic `MaxFileSize` cap. -/
theorem pdf_size_boundary :
    (∀ data : List Nat, data.length = MaxPDFSize →
        validateRequest ⟨[InputPDF data ""], some Output.textOutput, "", ""⟩ = none)
    ∧ (∀ data : List Nat, data.length = MaxPDFSize + 1 →
        ∃ e, validateRequest ⟨[InputPDF data ""], some Output.textOutput, "", ""⟩
            = some e ∧ GetErrorCode (some e) = InvalidArgument)
    ∧ MaxPDFSize + 1 ≤ MaxFileSize := by
  refine ⟨?_, ?_, by decide⟩
  · intro data h
    simp [validateRequest, validateLoop, validateInput, InputPDF, InputFile,
      h, MaxPDFSize, MaxFileSize]
  · intro data h
    have hval : validateRequest ⟨[InputPDF data ""], some Output.textOutput, "", ""⟩
        = some (newGrailError InvalidArgument
            ("input " ++ toString (0 : Nat) ++ ": PDF file size "
              ++ toString data.length ++ " exceeds maximum "
              ++ toString MaxPDFSize ++ " bytes")) := by
      simp [validateRequest, validateLoop, validateInput, InputPDF, InputFile,
        h, MaxPDFSize, MaxFileSize]
    exact ⟨_, hval, rfl⟩

/-- C4, witness: the boundary theorem applied to all-zero payloads of
exactly `MaxPDFSize` and `MaxPDFSize + 1` bytes. -/
theorem pdf_size_boundary_witness :
    validateRequest ⟨[InputPDF (List.replicate MaxPDFSize 0) ""],
        some Output.textOutput, "", ""⟩ = none
    ∧ ∃ e, validateRequest ⟨[InputPDF (List.replicate (MaxPDFSize + 1) 0) ""],
        some Output.textOutput, "", ""⟩ = some e
        ∧ GetErrorCode (some e) = InvalidArgument :=
  ⟨pdf_size_boundary.1 _ (by simp),
   pdf_size_boundary.2.1 _ (by simp)⟩

/-- C5: a request with no inputs, or with inputs but a nil output, makes
`Generate` fail with an `InvalidArgument` error while the provider's
`DoGenerate` is never invoked (the instrumented second component stays
`none`). -/
theorem generate_validation_guard (p : ProviderExec) (req : Request)
    (h : req.inputs = [] ∨ (req.inputs ≠ [] ∧ req.output = none)) :
    ∃ e, generateT p req = (Except.error e, none)
      ∧ GetErrorCode (some e) = InvalidArgument := by
  cases h with
  | inl h =>
    refine ⟨newGrailError InvalidArgument "inputs must not be empty", ?_, rfl⟩
    simp [generateT, validateRequest, h]
  | inr h =>
    obtain ⟨h1, h2⟩ := h
    refine ⟨newGrailError InvalidArgument "output must be specified", ?_, rfl⟩
    simp [generateT, validateRequest, h1, h2]

/-- C5, witness: the guard applied to an empty-inputs request and to a
missing-output request against the trivial provider. -/
theorem generate_validation_guard_witness :
    (∃ e, generateT trivialProvider ⟨[], some Output.textOutput, "", ""⟩
        = (Except.error e, none) ∧ GetErrorCode (some e) = InvalidArgument)
    ∧ (∃ e, generateT trivialProvider ⟨[InputText "hi"], none, "", ""⟩
        = (Except.error e, none) ∧ GetErrorCode (some e) = InvalidArgument) :=
  ⟨generate_validation_guard trivialProvider _ (Or.inl rfl),
   generate_validation_guard trivialProvider _ (Or.inr ⟨by simp [InputText], rfl⟩)⟩

/-- C6: whenever the request names an explicit model, a validated request is
dispatched to `DoGenerate` completely unchanged — the model string arrives
verbatim, no catalog lookup or tier resolution takes place (for any
provider, resolver capability or not, and any tier value). -/
theorem model_precedence (p : ProviderExec) (req : Request)
    (hm : req.model ≠ "") (hv : validateRequest req = none) :
    generateT p req = (p.doGenerate req, some req) := by
  simp [generateT, hv, hm]

/-- A request naming model `"X"` and tier `"best"` simultaneously. -/
def reqExplicit : Request :=
  ⟨[InputText "hi"], some Output.textOutput, "X", ModelTierBest⟩

/-- C6, witness: precedence applied to the request with model `"X"` and
tier `"best"`: the provider receives exactly that request, model `"X"`. -/
theorem model_precedence_witness :
    generateT trivialProvider reqExplicit
      = (trivialProvider.doGenerate reqExplicit, some reqExplicit) :=
  model_precedence trivialProvider reqExplicit (by simp [reqExplicit]) rfl

/-- C7: with an empty model and a non-empty tier, a resolver-capable
provider whose `ResolveModel` fails makes `Generate` return an
`InvalidArgument` error wrapping the resolver's failure as its cause, with
a message naming both the role and the tier; the role is derived from the
output variant — text and JSON outputs use the text role, image outputs
the image role. -/
theorem resolver_failure_wrapped (p : ProviderExec)
    (rm : String → String → Except GoError String) (req : Request)
    (e0 : GoError) (hres : p.resolveModel = some rm)
    (hv : validateRequest req = none) (hm : req.model = "")
    (ht : req.tier ≠ "")
    (hfail : rm (roleFromOutput req.output) req.tier = Except.error e0) :
    (∃ e, generateT p req = (Except.error e, none)
      ∧ GetErrorCode (some e) = InvalidArgument
      ∧ errCause e = some e0
      ∧ ∃ a b c, errMessageOf e
          = a ++ roleFromOutput req.output ++ b ++ req.tier ++ c)
    ∧ roleFromOutput (some Output.textOutput) = ModelRoleText
    ∧ (∀ strict, roleFromOutput (some (Output.jsonOutput strict)) = ModelRoleText)
    ∧ (∀ spec, roleFromOutput (some (Output.imageOutput spec)) = ModelRoleImage) := by
  refine ⟨?_, rfl, fun _ => rfl, fun _ => rfl⟩
  refine ⟨GoError.grail InvalidArgument
      ("failed to resolve model for role=" ++ roleFromOutput req.output
        ++ " tier=" ++ req.tier ++ ": " ++ errString e0) false "" "" (some e0),
    ?_, rfl, rfl,
    "failed to resolve model for role=", " tier=", ": " ++ errString e0,
    by simp [errMessageOf, String.append_assoc]⟩
  simp [generateT, hv, hm, ht, hres, hfail, withCause, newGrailError,
    InvalidArgument]

/-- A request with no explicit model and tier `"best"`. -/
def reqTier : Request :=
  ⟨[InputText "hi"], some Output.textOutput, "", ModelTierBest⟩

/-- C7, witness: the wrapped-failure theorem applied to the concrete
provider whose resolver always fails, on the tier-only text request. -/
theorem resolver_failure_wrapped_witness :
    (∃ e, generateT failingResolverProvider reqTier = (Except.error e, none)
      ∧ GetErrorCode (some e) = InvalidArgument
      ∧ errCause e = some (GoError.plain "no model registered" none)
      ∧ ∃ a b c, errMessageOf e
          = a ++ roleFromOutput reqTier.output ++ b ++ reqTier.tier ++ c)
    ∧ roleFromOutput (some Output.textOutput) = ModelRoleText
    ∧ (∀ strict, roleFromOutput (some (Output.jsonOutput strict)) = ModelRoleText)
    ∧ (∀ spec, roleFromOutput (some (Output.imageOutput spec)) = ModelRoleImage) :=
  resolver_failure_wrapped failingResolverProvider
    (fun _ _ => Except.error (GoError.plain "no model registered" none))
    reqTier (GoError.plain "no model registered" none)
    rfl rfl rfl (by simp [reqTier, ModelTierBest]) rfl

/-- C8: the remote-fetch helper rejects a declared `Content-Length` above
the cap with `InvalidArgument`; independently, reading through the
`maxBytes+1`-capped reader rejects any body that actually exceeds
`maxBytes` with `InvalidArgument`, even when `Content-Length` was absent
(−1) or understated; a non-200 status yields `Unavailable`; a deadline
during the fetch yields a retryable `Timeout`; any other transport failure
a retryable `Unavailable`. -/
theorem download_guards (maxBytes : Int) (expectedMIME name ct msg : String) :
    (∀ (status cl : Int) (body : List Nat) (rf : Option String),
      status = 200 → maxBytes < cl →
      ∃ e, downloadFile maxBytes expectedMIME
            (FetchOutcome.response status cl ct body rf) name = Except.error e
        ∧ GetErrorCode (some e) = InvalidArgument)
    ∧ (∀ (status cl : Int) (body : List Nat),
      0 ≤ maxBytes → status = 200 → cl ≤ maxBytes →
      maxBytes < (body.length : Int) →
      ∃ e, downloadFile maxBytes expectedMIME
            (FetchOutcome.response status cl ct body none) name = Except.error e
        ∧ GetErrorCode (some e) = InvalidArgument)
    ∧ (∀ (status cl : Int) (body : List Nat) (rf : Option String),
      status ≠ 200 →
      ∃ e, downloadFile maxBytes expectedMIME
            (FetchOutcome.response status cl ct body rf) name = Except.error e
        ∧ GetErrorCode (some e) = Unavailable)
    ∧ (∃ e, downloadFile maxBytes expectedMIME
          (FetchOutcome.transportError true msg) name = Except.error e
        ∧ GetErrorCode (some e) = Timeout ∧ errRetryableFlag e = true)
    ∧ (∃ e, downloadFile maxBytes expectedMIME
          (FetchOutcome.transportError false msg) name = Except.error e
        ∧ GetErrorCode (some e) = Unavailable ∧ errRetryableFlag e = true) := by
  refine ⟨?_, ?_, ?_, ?_, ?_⟩
  · intro status cl body rf hs hcl
    subst hs
    refine ⟨newGrailError InvalidArgument
        ("file size " ++ toString cl ++ " exceeds maximum "
          ++ toString maxBytes ++ " bytes"), ?_, rfl⟩
    simp [downloadFile, hcl]
  · intro status cl body hnn hs hcl hbody
    subst hs
    have hncl : ¬ maxBytes < cl := not_lt.mpr hcl
    have hcap : maxBytes <
        (((body.take ((maxBytes + 1).toNat)).length : Nat) : Int) := by
      rw [List.length_take]
      have hmin : min ((maxBytes + 1).toNat) body.length
          = (maxBytes + 1).toNat := by
        apply Nat.min_eq_left
        omega
      rw [hmin]
      omega
    refine ⟨newGrailError InvalidArgument
        ("file size exceeds maximum " ++ toString maxBytes ++ " bytes"),
      ?_, rfl⟩
    simp [downloadFile, hncl, hcap]
    intro h
    exact absurd h (not_le.mpr hbody)
  · intro status cl body rf hs
    refine ⟨newGrailError Unavailable
        ("download failed with status " ++ toString status), ?_, rfl⟩
    simp [downloadFile, hs]
  · exact ⟨GoError.grail Timeout "download timeout" true "" ""
      (some (GoError.plain msg none)), rfl, rfl, rfl⟩
  · exact ⟨GoError.grail Unavailable ("download failed: " ++ msg) true "" ""
      (some (GoError.plain msg none)), rfl, rfl, rfl⟩

/-- C8, witness: the guards applied with a 3-byte cap: an overdeclared
Content-Length, a 5-byte body behind an absent (−1) Content-Length, a 404
status, a deadline, and a plain transport failure. -/
theorem download_guards_witness :
    (∃ e, downloadFile 3 "" (FetchOutcome.response 200 9 "text/plain" [1] none) ""
        = Except.error e ∧ GetErrorCode (some e) = InvalidArgument)
    ∧ (∃ e, downloadFile 3 ""
          (FetchOutcome.response 200 (-1) "text/plain" [1, 2, 3, 4, 5] none) ""
        = Except.error e ∧ GetErrorCode (some e) = InvalidArgument)
    ∧ (∃ e, downloadFile 3 "" (FetchOutcome.response 404 (-1) "" [] none) ""
        = Except.error e ∧ GetErrorCode (some e) = Unavailable)
    ∧ (∃ e, downloadFile 3 "" (FetchOutcome.transportError true "ctx") ""
        = Except.error e ∧ GetErrorCode (some e) = Timeout
        ∧ errRetryableFlag e = true)
    ∧ (∃ e, downloadFile 3 "" (FetchOutcome.transportError false "conn reset") ""
        = Except.error e ∧ GetErrorCode (some e) = Unavailable
        ∧ errRetryableFlag e = true) :=
  ⟨(download_guards 3 "" "" "text/plain" "x").1 200 9 [1] none rfl (by decide),
   (download_guards 3 "" "" "text/plain" "x").2.1 200 (-1) [1, 2, 3, 4, 5]
     (by decide) rfl (by decide) (by decide),
   (download_guards 3 "" "" "" "x").2.2.1 404 (-1) [] none (by decide),
   (download_guards 3 "" "" "" "ctx").2.2.2.1,
   (download_guards 3 "" "" "" "conn reset").2.2.2.2⟩

/-- C9: the claim expects the extension lookup to be total — dot-less paths
falling back to `application/octet-stream` — and the table rows to hold.
The table rows do hold (lower-cased, last-dot extension), but on a path
with no `.` the source slices `path[-1:]` and panics (modelled as `none`):
evaluating the embedding at the failing input `"README"`. -/
theorem detectMIMEFromPath_table_and_dotless_panic :
    detectMIMEFromPath "README" = none
    ∧ detectMIMEFromPath "doc.pdf" = some "application/pdf"
    ∧ detectMIMEFromPath "photo.PNG" = some "image/png"
    ∧ detectMIMEFromPath "a.b.jpg" = some "image/jpeg"
    ∧ detectMIMEFromPath "pic.jpeg" = some "image/jpeg"
    ∧ detectMIMEFromPath "anim.gif" = some "image/gif"
    ∧ detectMIMEFromPath "img.webp" = some "image/webp"
    ∧ detectMIMEFromPath "notes.txt" = some "text/plain"
    ∧ detectMIMEFromPath "readme.md" = some "text/markdown"
    ∧ detectMIMEFromPath "readme.markdown" = some "text/markdown"
    ∧ detectMIMEFromPath "page.html" = some "text/html"
    ∧ detectMIMEFromPath "page.htm" = some "text/html"
    ∧ detectMIMEFromPath "data.json" = some "application/json"
    ∧ detectMIMEFromPath "main.go" = some "text/x-go"
    ∧ detectMIMEFromPath "archive.xyz" = some "application/octet-stream" :=
  ⟨rfl, rfl, rfl, rfl, rfl, rfl, rfl, rfl, rfl, rfl, rfl, rfl, rfl, rfl, rfl⟩

/-- C10: a file input with any non-empty declared MIME other than
`application/pdf` passes validation whenever its payload is non-empty and
at most `MaxFileSize` bytes — for arbitrary payload bytes, so the declared
MIME is trusted without any content sniffing (sniffing runs only for the
empty-MIME marker). -/
theorem declared_mime_trusted (data : List Nat) (mime name model tier : String)
    (out : Output) (hm : mime ≠ "") (hpdf : mime ≠ "application/pdf")
    (h0 : data ≠ []) (hlen : data.length ≤ MaxFileSize) :
    validateRequest ⟨[Input.fileInput data mime name], some out, model, tier⟩
      = none := by
  have h0' : ¬ data.length = 0 := by
    simpa using h0
  simp [validateRequest, validateLoop, validateInput, hm, hpdf, h0',
    not_lt.mpr hlen]

/-- C10, witness: a single byte that is no valid PNG, declared as
`image/png`, is accepted without any content check. -/
theorem declared_mime_trusted_witness :
    validateRequest ⟨[Input.fileInput [0] "image/png" ""],
        some Output.textOutput, "", ""⟩ = none :=
  declared_mime_trusted [0] "image/png" "" "" "" Output.textOutput
    (by decide) (by decide) (by decide) (by decide)

end GrailProofs



